import Mathlib

/-!
Shallow embedding of `seed-scraper` (src/src/main.rs) for checking the
natural-language specification against the code.

Conventions of the embedding:
* Rust `Option<T>` is `Option T`; fallible paths are `Except`.
* A Rust panic (an `unwrap()` failing) is `Except.error ()`.
* `chrono::NaiveDate` is a proleptic-Gregorian day number (`Int`, days
  since 1970-01-01); `from_ymd` is the standard civil-calendar conversion.
* Rust machine integers are `Int`/`Nat` with explicit wrapping where the
  source casts (`as u64` becomes `% 2^64`).
* The regex `(\d+)\s*to\s*(\d+)\s*weeks\s*(before|after)\s*(your average
  last frost date|transplanting)` is embedded as a deterministic scanner:
  the pattern's literals never begin with a digit or a whitespace
  character, so the regex engine's leftmost-first match with greedy
  quantifiers coincides with leftmost maximal-munch scanning.
  `\d` is modelled as the ASCII digits and `\s` as `Char.isWhitespace`.
* HTML parsing/DOM querying (the `scraper` crate) is the external
  collaborator of spec section 4.5: its query results are passed in as a
  `ParsedDoc` value; float parsing of the rating attributes happens in
  that collaborator.
-/

/-- Substring test on character lists, mirroring Rust `str::contains`. -/
def has_sub_chars (pat : List Char) : List Char → Bool
  | [] => pat.isEmpty
  | c :: rest => pat.isPrefixOf (c :: rest) || has_sub_chars pat rest

/-- Rust `str::contains` on strings. -/
def str_has_sub (hay pat : String) : Bool :=
  has_sub_chars pat.data hay.data

/-- Rust source: `PlantInfo::normalize_text` — replace U+2013 then U+2014
with an ASCII hyphen-minus. -/
def normalize_text (s : String) : String :=
  String.mk
    ((s.data.map fun c => if c = Char.ofNat 0x2013 then '-' else c).map
      fun c => if c = Char.ofNat 0x2014 then '-' else c)

/-- Rust source: `enum TimingType`. -/
inductive TimingType
  | LastFrost
  | Transplant
deriving DecidableEq

/-- Rust source: `enum RelativeTiming`. -/
inductive RelativeTiming
  | Before
  | After
deriving DecidableEq

/-- Rust source: `enum SowingStrategy`. -/
inductive SowingStrategy
  | Inside
  | Outside
deriving DecidableEq

/-- Rust source: `struct SowingTime` (fields are Rust `i64`). -/
structure SowingTime where
  weeks_min : Int
  weeks_max : Int
  relative_timing : RelativeTiming
  timing_type : TimingType
deriving DecidableEq

/-- Rust source: `struct PlantInfo`.  `rating: Option<f32>` is embedded
with `Rat` values (every finite `f32` is rational; only its absence
matters to the claims). -/
structure PlantInfo where
  url : String
  title : Option String
  description : Option String
  days_to_maturity : Option String
  family : Option String
  plant_type : Option String
  native : Option String
  hardiness : Option String
  exposure : Option String
  plant_dimensions : Option String
  variety_info : Option String
  attributes : Option String
  when_to_sow_outside : Option String
  when_to_start_inside : Option String
  days_to_emerge : Option String
  seed_depth : Option String
  seed_spacing : Option String
  row_spacing : Option String
  thinning : Option String
  rating : Option Rat
  votes : Option Nat
deriving DecidableEq

/-- Rust source: `enum ScrapingError` (the `Other` variant's payload is
irrelevant to the claims and carried as a message string). -/
inductive ScrapingError
  | CloudflareBlocked
  | Other (msg : String)
deriving DecidableEq

/-- Take the maximal leading run of ASCII digits (the greedy `(\d+)`
group), returning the digits and the rest. -/
def takeDigits : List Char → List Char × List Char
  | [] => ([], [])
  | c :: rest =>
    if c.isDigit then
      let p := takeDigits rest
      (c :: p.1, p.2)
    else ([], c :: rest)

/-- Skip the maximal leading run of whitespace (the greedy `\s*`). -/
def skipWs : List Char → List Char
  | [] => []
  | c :: rest => if c.isWhitespace then skipWs rest else c :: rest

/-- Consume an exact literal, returning the remainder on success. -/
def stripLit : List Char → List Char → Option (List Char)
  | [], s => some s
  | _ :: _, [] => none
  | p :: ps, c :: cs => if p = c then stripLit ps cs else none

/-- The raw capture groups of one regex match: the two digit-run
captures and the decoded alternation groups. -/
structure RawGroups where
  d1 : List Char
  d2 : List Char
  rt : RelativeTiming
  tt : TimingType
deriving DecidableEq

/-- Attempt the whole timing pattern anchored at the head of `s`. -/
def matchAt (s : List Char) : Option RawGroups :=
  let p1 := takeDigits s
  if p1.1.isEmpty then none else
  match stripLit "to".data (skipWs p1.2) with
  | none => none
  | some s2 =>
    let p2 := takeDigits (skipWs s2)
    if p2.1.isEmpty then none else
    match stripLit "weeks".data (skipWs p2.2) with
    | none => none
    | some s3 =>
      let s4 := skipWs s3
      let dir : Option (RelativeTiming × List Char) :=
        match stripLit "before".data s4 with
        | some s5 => some (RelativeTiming.Before, s5)
        | none =>
          match stripLit "after".data s4 with
          | some s5 => some (RelativeTiming.After, s5)
          | none => none
      match dir with
      | none => none
      | some (rt, s5) =>
        let s6 := skipWs s5
        match stripLit "your average last frost date".data s6 with
        | some _ => some ⟨p1.1, p2.1, rt, TimingType.LastFrost⟩
        | none =>
          match stripLit "transplanting".data s6 with
          | some _ => some ⟨p1.1, p2.1, rt, TimingType.Transplant⟩
          | none => none

/-- Leftmost unanchored search: try each start position left to right. -/
def scanFor : List Char → Option RawGroups
  | [] => none
  | c :: rest =>
    match matchAt (c :: rest) with
    | some g => some g
    | none => scanFor rest

/-- The embedded `Regex::captures` call of `extract_weeks_pattern`. -/
def extractCore (text : String) : Option RawGroups :=
  scanFor text.data

/-- Numeric value of an ASCII digit run. -/
def natOfDigits (ds : List Char) : Nat :=
  ds.foldl (fun a c => a * 10 + (c.toNat - 48)) 0

/-- Rust `str::parse::<i64>()` on a digit run: succeeds iff the value
fits in `i64` (no sign, so only the upper bound matters). -/
def parseI64 (ds : List Char) : Option Int :=
  let n := natOfDigits ds
  if n ≤ 9223372036854775807 then some (n : Int) else none

/-- Rust source: `extract_weeks_pattern`.  The source calls
`.parse().unwrap()` on both numeric captures, so a failing parse is a
panic, embedded as `Except.error ()`.  The source's defensive
`_ => return None` arm on the reference capture is unreachable because
the regex alternation only produces the two recognized phrases. -/
def extract_weeks_pattern (text : String) : Except Unit (Option SowingTime) :=
  match extractCore text with
  | none => Except.ok none
  | some g =>
    match parseI64 g.d1, parseI64 g.d2 with
    | some a, some b =>
      Except.ok (some ⟨a, b, g.rt, g.tt⟩)
    | _, _ => Except.error ()

/-- Rust source: `determine_sowing_strategy`.  The match-with-guards over
`(when_to_sow_outside, when_to_start_inside)` is compiled to the
equivalent decision chain (arm order preserved). -/
def determine_sowing_strategy (info : PlantInfo)
    (user_strategy : Option SowingStrategy) : Option SowingStrategy :=
  match user_strategy with
  | some strategy => some strategy
  | none =>
    match info.when_to_sow_outside, info.when_to_start_inside with
    | some out, ins =>
      if str_has_sub out "RECOMMENDED" then some SowingStrategy.Outside
      else
        match ins with
        | some i =>
          if str_has_sub i "RECOMMENDED" then some SowingStrategy.Inside
          else some SowingStrategy.Outside
        | none => some SowingStrategy.Outside
    | none, some i =>
      if str_has_sub i "RECOMMENDED" then some SowingStrategy.Inside
      else some SowingStrategy.Inside
    | none, none => none

/-- Extraction applied to an optional text (`text.and_then(extract...)`);
a panic inside the extraction propagates. -/
def optExtract : Option String → Except Unit (Option SowingTime)
  | none => Except.ok none
  | some t => extract_weeks_pattern t

/-- Rust source: `get_when_to_seed_start`. -/
def get_when_to_seed_start (info : PlantInfo)
    (user_strategy : Option SowingStrategy) : Except Unit (Option SowingTime) :=
  match determine_sowing_strategy info user_strategy with
  | some SowingStrategy.Inside => optExtract info.when_to_start_inside
  | some SowingStrategy.Outside => optExtract info.when_to_sow_outside
  | none => Except.ok none

/-- Civil (proleptic Gregorian) date to day number since 1970-01-01,
the value semantics of `chrono::NaiveDate::from_ymd_opt` for in-range
dates (standard days-from-civil algorithm). -/
def days_from_civil (y m d : Int) : Int :=
  let y' := if m ≤ 2 then y - 1 else y
  let era := Int.fdiv y' 400
  let yoe := y' - era * 400
  let mp := (m + 9) % 12
  let doy := (153 * mp + 2) / 5 + d - 1
  let doe := yoe * 365 + yoe / 4 - yoe / 100 + doy
  era * 146097 + doe - 719468

/-- Rust source: `calculate_start_date`.  `Days::new((weeks_min * 7) as
u64)` casts an `i64` to `u64`, wrapping modulo `2^64`; the day offset is
applied on the unbounded day-number line. -/
def calculate_start_date (sowing_time : SowingTime) (frost_date : Int) : Int :=
  let base_date :=
    match sowing_time.timing_type with
    | TimingType.LastFrost => frost_date
    | TimingType.Transplant => frost_date + 21
  let off : Int := (sowing_time.weeks_min * 7) % (2 ^ 64 : Int)
  match sowing_time.relative_timing with
  | RelativeTiming.Before => base_date - off
  | RelativeTiming.After => base_date + off

/-- Rust source: `struct InputRecord`. -/
structure InputRecord where
  plant_name : String
  url : String
  brand : String
  purchase_year : String
  notes : String
  user_strategy_str : String
  user_strategy : Option SowingStrategy
deriving DecidableEq

/-- The strategy-string match inside `InputRecord::from_csv_record`:
the two wildcard arms (empty after trim, and anything else) both give
`None`. -/
def parse_user_strategy (s : String) : Option SowingStrategy :=
  if s = "Inside" then some SowingStrategy.Inside
  else if s = "Outside" then some SowingStrategy.Outside
  else if s.trim.isEmpty then none
  else none

/-- Rust source: `InputRecord::from_csv_record`.  A CSV `StringRecord`
is a list of fields; `record.get(i)` is `List.get?` and `unwrap_or`
supplies the defaults. -/
def from_csv_record (record : List String) : InputRecord :=
  let plant_name := (record.get? 0).getD "unknown"
  let url := (record.get? 1).getD ""
  let brand := (record.get? 2).getD ""
  let purchase_year := (record.get? 3).getD ""
  let notes := (record.get? 4).getD ""
  let user_strategy_str := (record.get? 5).getD ""
  { plant_name := plant_name
    url := url
    brand := brand
    purchase_year := purchase_year
    notes := notes
    user_strategy_str := user_strategy_str
    user_strategy := parse_user_strategy user_strategy_str }

/-- Rust source: `create_error_record` — the six roster passthrough
fields followed by `vec!["ERR"; 24]`. -/
def create_error_record (input : InputRecord) : List String :=
  [input.plant_name, input.url, input.brand, input.purchase_year,
   input.notes, input.user_strategy_str] ++ List.replicate 24 "ERR"

/-- Rust source: the header record written by `export_to_csv`. -/
def export_header : List String :=
  ["Plant Name", "URL", "Brand", "Purchase Year", "Notes",
   "Users Sowing Strategy", "Title", "Description", "Days to Maturity",
   "Family", "Plant Type", "Native", "Hardiness", "Exposure",
   "Plant Dimensions", "Variety Info", "Attributes",
   "When to Sow Outside", "When to Start Inside", "Days to Emerge",
   "Seed Depth", "Seed Spacing", "Row Spacing", "Thinning", "Rating",
   "Votes", "Sowing Strategy", "When to Seed Start",
   "Calculated Start Date"]

/-- JSON values as produced/consumed by serde for `PlantInfo` (numbers
carried as rationals; no other JSON forms occur for this struct). -/
inductive Json
  | str (s : String)
  | num (q : Rat)
deriving DecidableEq

/-- Serialize one optional string field: omitted entirely when absent
(`skip_serializing_if = "Option::is_none"`). -/
def ser_opt_str (k : String) : Option String → List (String × Json)
  | none => []
  | some s => [(k, Json.str s)]

/-- Serialize the optional rating field (same skipping rule). -/
def ser_opt_rat (k : String) : Option Rat → List (String × Json)
  | none => []
  | some q => [(k, Json.num q)]

/-- Serialize the optional votes field (same skipping rule). -/
def ser_opt_nat (k : String) : Option Nat → List (String × Json)
  | none => []
  | some n => [(k, Json.num n)]

/-- Serde serialization of `PlantInfo`: fields in declaration order,
`url` always present, every `Option` field omitted when `None`. -/
def serialize_plant_info (p : PlantInfo) : List (String × Json) :=
  [("url", Json.str p.url)]
    ++ ser_opt_str "title" p.title
    ++ ser_opt_str "description" p.description
    ++ ser_opt_str "days_to_maturity" p.days_to_maturity
    ++ ser_opt_str "family" p.family
    ++ ser_opt_str "plant_type" p.plant_type
    ++ ser_opt_str "native" p.native
    ++ ser_opt_str "hardiness" p.hardiness
    ++ ser_opt_str "exposure" p.exposure
    ++ ser_opt_str "plant_dimensions" p.plant_dimensions
    ++ ser_opt_str "variety_info" p.variety_info
    ++ ser_opt_str "attributes" p.attributes
    ++ ser_opt_str "when_to_sow_outside" p.when_to_sow_outside
    ++ ser_opt_str "when_to_start_inside" p.when_to_start_inside
    ++ ser_opt_str "days_to_emerge" p.days_to_emerge
    ++ ser_opt_str "seed_depth" p.seed_depth
    ++ ser_opt_str "seed_spacing" p.seed_spacing
    ++ ser_opt_str "row_spacing" p.row_spacing
    ++ ser_opt_str "thinning" p.thinning
    ++ ser_opt_rat "rating" p.rating
    ++ ser_opt_nat "votes" p.votes

/-- Deserialize an optional string field: a missing key is `None` (serde
treats `Option` fields as implicitly defaulted), a present key must hold
a string. -/
def de_opt_str (j : List (String × Json)) (k : String) : Option (Option String) :=
  match j.lookup k with
  | none => some none
  | some (Json.str s) => some (some s)
  | some _ => none

/-- Deserialize the optional rating field. -/
def de_opt_rat (j : List (String × Json)) (k : String) : Option (Option Rat) :=
  match j.lookup k with
  | none => some none
  | some (Json.num q) => some (some q)
  | some _ => none

/-- Deserialize the optional votes field (a non-negative integer). -/
def de_opt_nat (j : List (String × Json)) (k : String) : Option (Option Nat) :=
  match j.lookup k with
  | none => some none
  | some (Json.num q) =>
    if q.den = 1 ∧ 0 ≤ q.num then some (some q.num.toNat) else none
  | some _ => none

/-- Deserialize the mandatory `url` field. -/
def de_req_str (j : List (String × Json)) (k : String) : Option String :=
  match j.lookup k with
  | some (Json.str s) => some s
  | _ => none

/-- First group of optional string fields (struct order), failing as a
whole when any present key has the wrong type. -/
def de_fields_a (j : List (String × Json)) :
    Option (Option String × Option String × Option String × Option String ×
      Option String × Option String × Option String × Option String ×
      Option String) :=
  (de_opt_str j "title").bind fun title =>
  (de_opt_str j "description").bind fun description =>
  (de_opt_str j "days_to_maturity").bind fun days_to_maturity =>
  (de_opt_str j "family").bind fun family =>
  (de_opt_str j "plant_type").bind fun plant_type =>
  (de_opt_str j "native").bind fun native =>
  (de_opt_str j "hardiness").bind fun hardiness =>
  (de_opt_str j "exposure").bind fun exposure =>
  (de_opt_str j "plant_dimensions").bind fun plant_dimensions =>
  some (title, description, days_to_maturity, family, plant_type, native,
    hardiness, exposure, plant_dimensions)

/-- Second group of optional string fields (struct order). -/
def de_fields_b (j : List (String × Json)) :
    Option (Option String × Option String × Option String × Option String ×
      Option String × Option String × Option String × Option String ×
      Option String) :=
  (de_opt_str j "variety_info").bind fun variety_info =>
  (de_opt_str j "attributes").bind fun attributes =>
  (de_opt_str j "when_to_sow_outside").bind fun when_to_sow_outside =>
  (de_opt_str j "when_to_start_inside").bind fun when_to_start_inside =>
  (de_opt_str j "days_to_emerge").bind fun days_to_emerge =>
  (de_opt_str j "seed_depth").bind fun seed_depth =>
  (de_opt_str j "seed_spacing").bind fun seed_spacing =>
  (de_opt_str j "row_spacing").bind fun row_spacing =>
  (de_opt_str j "thinning").bind fun thinning =>
  some (variety_info, attributes, when_to_sow_outside,
    when_to_start_inside, days_to_emerge, seed_depth, seed_spacing,
    row_spacing, thinning)

/-- Serde deserialization of `PlantInfo`. -/
def deserialize_plant_info (j : List (String × Json)) : Option PlantInfo :=
  (de_req_str j "url").bind fun url =>
  (de_fields_a j).bind fun a =>
  (de_fields_b j).bind fun b =>
  (de_opt_rat j "rating").bind fun rating =>
  (de_opt_nat j "votes").bind fun votes =>
  some { url := url, title := a.1, description := a.2.1,
         days_to_maturity := a.2.2.1, family := a.2.2.2.1,
         plant_type := a.2.2.2.2.1, native := a.2.2.2.2.2.1,
         hardiness := a.2.2.2.2.2.2.1, exposure := a.2.2.2.2.2.2.2.1,
         plant_dimensions := a.2.2.2.2.2.2.2.2,
         variety_info := b.1, attributes := b.2.1,
         when_to_sow_outside := b.2.2.1,
         when_to_start_inside := b.2.2.2.1,
         days_to_emerge := b.2.2.2.2.1, seed_depth := b.2.2.2.2.2.1,
         seed_spacing := b.2.2.2.2.2.2.1,
         row_spacing := b.2.2.2.2.2.2.2.1,
         thinning := b.2.2.2.2.2.2.2.2, rating := rating,
         votes := votes }

/-- A `PlantRecord` with every optional field absent. -/
def all_absent_record (url : String) : PlantInfo :=
  { url := url, title := none, description := none,
    days_to_maturity := none, family := none, plant_type := none,
    native := none, hardiness := none, exposure := none,
    plant_dimensions := none, variety_info := none, attributes := none,
    when_to_sow_outside := none, when_to_start_inside := none,
    days_to_emerge := none, seed_depth := none, seed_spacing := none,
    row_spacing := none, thinning := none, rating := none, votes := none }

/-- Remove every (leftmost, non-overlapping) occurrence of `pat`,
mirroring Rust `str::replace(pat, "")`.  An empty pattern leaves the
text unchanged (Rust inserts the empty replacement, changing nothing). -/
def removeAll (pat : List Char) : List Char → List Char
  | [] => []
  | c :: rest =>
    if _h : pat ≠ [] ∧ pat.isPrefixOf (c :: rest) then
      removeAll pat ((c :: rest).drop pat.length)
    else
      c :: removeAll pat rest
termination_by l => l.length
decreasing_by
  · simp only [List.length_drop, List.length_cons]
    have hne : pat ≠ [] := _h.1
    have : 1 ≤ pat.length := List.length_pos.mpr hne
    omega
  · simp only [List.length_cons]
    omega

/-- Rust `full_text.replace(&label, "")` on strings. -/
def remove_label (full_text label : String) : String :=
  String.mk (removeAll label.data full_text.data)

/-- Rust `label.trim_end_matches(':')`: drop every trailing colon. -/
def trim_end_colons (s : String) : String :=
  String.mk ((s.data.reverse.dropWhile fun c => c = ':').reverse)

/-- The parsed-document abstraction of spec section 4.5 (results of the
external DOM-query collaborator): optional title text, optional
description text, the rating element's parsed attribute pair when the
element carries both attributes, and the ordered `div.tab-content p b`
label/parent-text pairs. -/
structure ParsedDoc where
  title_text : Option String
  description_text : Option String
  rating_attrs : Option (Option Rat × Option Nat)
  label_pairs : List (String × String)

/-- One iteration of the label loop in `PlantInfo::from_html`: subtract
the label from the parent text, trim, normalize, then assign by exact
label match (unrecognized labels fall through). -/
def apply_label (info : PlantInfo) (p : String × String) : PlantInfo :=
  let label := p.1
  let normalized := normalize_text (remove_label p.2 label).trim
  if trim_end_colons label = "Days to Maturity" then
    { info with days_to_maturity := some normalized }
  else if trim_end_colons label = "Family" then
    { info with family := some normalized }
  else if trim_end_colons label = "Type" then
    { info with plant_type := some (remove_label normalized " (Learn more)") }
  else if trim_end_colons label = "Native" then
    { info with native := some normalized }
  else if trim_end_colons label = "Hardiness" then
    { info with hardiness := some normalized }
  else if trim_end_colons label = "Exposure" then
    { info with exposure := some normalized }
  else if trim_end_colons label = "Plant Dimensions" then
    { info with plant_dimensions := some normalized }
  else if trim_end_colons label = "Variety Info" then
    { info with variety_info := some normalized }
  else if trim_end_colons label = "Attributes" then
    { info with attributes := some normalized }
  else if trim_end_colons label = "When to Sow Outside" then
    { info with when_to_sow_outside := some normalized }
  else if trim_end_colons label = "When to Start Inside" then
    { info with when_to_start_inside := some normalized }
  else if trim_end_colons label = "Days to Emerge" then
    { info with days_to_emerge := some normalized }
  else if trim_end_colons label = "Seed Depth" then
    { info with seed_depth := some normalized }
  else if trim_end_colons label = "Seed Spacing" then
    { info with seed_spacing := some normalized }
  else if trim_end_colons label = "Row Spacing" then
    { info with row_spacing := some normalized }
  else if trim_end_colons label = "Thinning" then
    { info with thinning := some normalized }
  else info

/-- The record built by the DOM-processing part of
`PlantInfo::from_html` (everything after the blocked check). -/
def build_plant_info (doc : ParsedDoc) (url : String) : PlantInfo :=
  let info0 := all_absent_record url
  let info1 := { info0 with title := doc.title_text.map normalize_text }
  let info2 := { info1 with
    description := doc.description_text.map fun t => normalize_text t.trim }
  let info3 :=
    match doc.rating_attrs with
    | none => info2
    | some (r, v) => { info2 with rating := r, votes := v }
  doc.label_pairs.foldl apply_label info3

/-- The blocking-page check of `PlantInfo::from_html`: the raw content
contains one of the three fixed Cloudflare signatures. -/
def is_blocked_content (html : String) : Bool :=
  str_has_sub html "Attention Required! | Cloudflare"
    || str_has_sub html "Sorry, you have been blocked"
    || str_has_sub html "Please enable cookies."

/-- Rust source: `PlantInfo::from_html`.  The signature check happens on
the raw content before any DOM query; the parsed-document value `doc`
stands for the external DOM collaborator's answers and is consulted only
on the non-blocked branch. -/
def from_html (html : String) (doc : ParsedDoc) (url : String) :
    Except ScrapingError PlantInfo :=
  if is_blocked_content html then
    Except.error ScrapingError.CloudflareBlocked
  else
    Except.ok (build_plant_info doc url)

/-- Specification-side resolver: the decision table of spec section 4.3
(claim C2), written from the spec's words, to be compared with the
source's `determine_sowing_strategy`. -/
def resolve_spec (outsideText insideText : Option String)
    (ov : Option SowingStrategy) : Option SowingStrategy :=
  match ov with
  | some s => some s
  | none =>
    if (match outsideText with
        | some t => str_has_sub t "RECOMMENDED"
        | none => false) then
      some SowingStrategy.Outside
    else if (match insideText with
        | some t => str_has_sub t "RECOMMENDED"
        | none => false) then
      some SowingStrategy.Inside
    else
      match outsideText, insideText with
      | some _, none => some SowingStrategy.Outside
      | none, some _ => some SowingStrategy.Inside
      | some _, some _ => some SowingStrategy.Outside
      | none, none => none

/-- Concrete record for exercising cross-strategy fallback: the outside
text fits no grammar while the inside text does, and neither carries the
marker, so the resolver picks Outside. -/
def info_cross_test : PlantInfo :=
  { all_absent_record "u" with
    when_to_sow_outside := some "do not match me",
    when_to_start_inside := some "6 to 8 weeks before transplanting" }

/-- A parsed document with no query results. -/
def empty_doc : ParsedDoc :=
  { title_text := none, description_text := none, rating_attrs := none,
    label_pairs := [] }

/-- Sanity example mirrored from the source's own test suite
(`test_calculate_start_date`, first case). -/
theorem calc_example_before_last_frost :
    calculate_start_date ⟨2, 4, RelativeTiming.Before, TimingType.LastFrost⟩
      (days_from_civil 2025 5 10) = days_from_civil 2025 4 26 := by
  decide

/-- C1 (counterexample): the spec's worked example names 2025-04-20, but
the code's date for the descriptor {6, 8, Before, RelativeToTransplant}
and frost date 2025-05-10 is not 2025-04-20. -/
theorem c1_spec_example_false :
    calculate_start_date ⟨6, 8, RelativeTiming.Before, TimingType.Transplant⟩
      (days_from_civil 2025 5 10) ≠ days_from_civil 2025 4 20 := by
  decide

/-- C1 (amended): for the descriptor {weeks_min 6, weeks_max 8, Before,
RelativeToTransplant} and frost date 2025-05-10, the base date is
frost + 21 days = 2025-05-31, the offset is 6 * 7 = 42 days, and the
computed date is 2025-05-31 minus 42 days = 2025-04-19. -/
theorem c1_amended_start_date :
    days_from_civil 2025 5 10 + 21 = days_from_civil 2025 5 31 ∧
    calculate_start_date ⟨6, 8, RelativeTiming.Before, TimingType.Transplant⟩
        (days_from_civil 2025 5 10) = days_from_civil 2025 5 31 - 42 ∧
    calculate_start_date ⟨6, 8, RelativeTiming.Before, TimingType.Transplant⟩
        (days_from_civil 2025 5 10) = days_from_civil 2025 4 19 := by
  decide

/-- C2: for every pair of optional instruction texts (carried on the
record) and optional override, the source's strategy resolver returns
exactly what the spec's seven-step decision table prescribes; being a
pure function of its arguments it is deterministic and total over the
whole matrix. -/
theorem c2_resolver_matches_spec (info : PlantInfo)
    (ov : Option SowingStrategy) :
    determine_sowing_strategy info ov =
      resolve_spec info.when_to_sow_outside info.when_to_start_inside ov := by
  cases ov with
  | some s => rfl
  | none =>
    cases h1 : info.when_to_sow_outside <;>
      cases h2 : info.when_to_start_inside <;>
        simp [determine_sowing_strategy, resolve_spec, h1, h2]

/-- C3 (code evaluated at the failing input): the error row written for
a roster entry with no stored record has 30 columns, while the header
row written by the export has 29 columns — so the error row does NOT
match the header width (the six passthrough fields are followed by 24
"ERR" cells where the header leaves room for only 23 scraped/derived
columns). -/
theorem c3_error_row_width_bug :
    (create_error_record (from_csv_record
        ["Carrot", "http://example.com", "Brand X", "2023", "Test notes",
         "Inside"])).length = 30 ∧
    export_header.length = 29 := by
  constructor <;> rfl

/-- C4 (counterexample): on an input whose matched numeric group does
not fit in an i64, extraction panics (the source's
`.parse().unwrap()`), modelled as `Except.error ()` — it does not
return absent. -/
theorem c4_overflow_panics :
    extract_weeks_pattern
        "9223372036854775808 to 1 weeks before transplanting"
      = Except.error () := by
  rfl

/-- C4 (amended): extraction returns absent whenever no phrase matches,
and it aborts (panics) exactly when a phrase matches but one of its
numeric groups fails to parse as an i64; the unrecognized-reference
branch of the source is unreachable because the regex alternation only
produces the two recognized phrases. -/
theorem c4_amended_totality (t : String) :
    (extractCore t = none → extract_weeks_pattern t = Except.ok none) ∧
    (extract_weeks_pattern t = Except.error () ↔
      ∃ g, extractCore t = some g ∧
        (parseI64 g.d1 = none ∨ parseI64 g.d2 = none)) := by
  constructor
  · intro h
    simp [extract_weeks_pattern, h]
  · constructor
    · intro h
      cases hg : extractCore t with
      | none => simp [extract_weeks_pattern, hg] at h
      | some g =>
        refine ⟨g, rfl, ?_⟩
        cases h1 : parseI64 g.d1 <;> cases h2 : parseI64 g.d2 <;>
          simp [extract_weeks_pattern, hg, h1, h2] at h ⊢
    · rintro ⟨g, hg, hp⟩
      rcases hp with hp | hp <;>
        cases h1 : parseI64 g.d1 <;> cases h2 : parseI64 g.d2 <;>
          simp_all [extract_weeks_pattern, hg]

/-- C4 witness: a non-matching text yields absent, via the amended
theorem. -/
theorem c4_amended_totality_witness :
    extract_weeks_pattern "plant whenever you feel like it"
      = Except.ok none :=
  (c4_amended_totality "plant whenever you feel like it").1 (by rfl)

/-- C5: record extraction fails with the Blocked condition exactly when
the raw content contains one of the three fixed blocking-page
signatures, and any non-blocked content yields a (whole, non-partial)
record built from the parsed document. -/
theorem c5_blocked_iff (html : String) (doc : ParsedDoc) (url : String) :
    (from_html html doc url
        = Except.error ScrapingError.CloudflareBlocked ↔
      is_blocked_content html = true) ∧
    (is_blocked_content html = false →
      from_html html doc url = Except.ok (build_plant_info doc url)) := by
  cases h : is_blocked_content html <;> simp [from_html, h]

/-- C5 witness: one blocked page and one non-blocked page, via the
theorem. -/
theorem c5_blocked_iff_witness :
    from_html "Sorry, you have been blocked" empty_doc "u"
        = Except.error ScrapingError.CloudflareBlocked ∧
    from_html "hello" empty_doc "u"
        = Except.ok (build_plant_info empty_doc "u") :=
  ⟨(c5_blocked_iff "Sorry, you have been blocked" empty_doc "u").1.mpr
      (by rfl),
   (c5_blocked_iff "hello" empty_doc "u").2 (by rfl)⟩

/-- C6: the computed date depends only on weeks_min, relative_timing and
timing_type — two descriptors that differ only in weeks_max give the
same date for every frost date. -/
theorem c6_weeks_max_irrelevant (frost : Int) (a b : SowingTime)
    (hmin : a.weeks_min = b.weeks_min)
    (hrt : a.relative_timing = b.relative_timing)
    (htt : a.timing_type = b.timing_type) :
    calculate_start_date a frost = calculate_start_date b frost := by
  cases a; cases b
  simp_all [calculate_start_date]

/-- C6 witness: weeks_max 8 versus 800 at a concrete frost date, via
the theorem. -/
theorem c6_weeks_max_irrelevant_witness :
    calculate_start_date
        ⟨6, 8, RelativeTiming.Before, TimingType.Transplant⟩ 20218 =
      calculate_start_date
        ⟨6, 800, RelativeTiming.Before, TimingType.Transplant⟩ 20218 :=
  c6_weeks_max_irrelevant 20218 _ _ rfl rfl rfl

/-- C7: serializing a record whose every optional field is absent emits
only the `url` key (absent fields omitted, not emitted as null), and
deserializing the result returns a record equal to the original in
every field. -/
theorem c7_roundtrip_all_absent (url : String) :
    deserialize_plant_info (serialize_plant_info (all_absent_record url))
        = some (all_absent_record url) ∧
    (serialize_plant_info (all_absent_record url)).map Prod.fst
        = ["url"] := by
  have hs : serialize_plant_info (all_absent_record url)
      = [("url", Json.str url)] := by
    simp [serialize_plant_info, all_absent_record, ser_opt_str,
      ser_opt_rat, ser_opt_nat]
  rw [hs]
  refine ⟨?_, rfl⟩
  simp [deserialize_plant_info, de_fields_a, de_fields_b, de_req_str,
    de_opt_str, de_opt_rat, de_opt_nat, List.lookup, all_absent_record]

/-- C8: the seed-start descriptor comes only from the instruction text
selected by the resolved strategy — when that text extracts to absent,
the overall result is absent, with no condition on (and no fallback to)
the other instruction text. -/
theorem c8_no_cross_fallback (info : PlantInfo)
    (us : Option SowingStrategy) :
    (determine_sowing_strategy info us = some SowingStrategy.Outside →
      optExtract info.when_to_sow_outside = Except.ok none →
      get_when_to_seed_start info us = Except.ok none) ∧
    (determine_sowing_strategy info us = some SowingStrategy.Inside →
      optExtract info.when_to_start_inside = Except.ok none →
      get_when_to_seed_start info us = Except.ok none) := by
  constructor <;> intro hs he <;> simp [get_when_to_seed_start, hs, he]

/-- C8 witness: a record whose selected (Outside) text fits no grammar
while its Inside text would extract a descriptor, via the theorem. -/
theorem c8_no_cross_fallback_witness :
    get_when_to_seed_start info_cross_test none = Except.ok none ∧
    extract_weeks_pattern "6 to 8 weeks before transplanting"
      = Except.ok
          (some ⟨6, 8, RelativeTiming.Before, TimingType.Transplant⟩) :=
  ⟨(c8_no_cross_fallback info_cross_test none).1 (by rfl) (by rfl),
   by rfl⟩

/-- C9: whitespace between the grammar's tokens is zero-or-more — the
phrase with no separating whitespace at all, and one with runs of
spaces, both extract descriptors. -/
theorem c9_zero_width_whitespace :
    extract_weeks_pattern "2to4weeksbefore transplanting"
        = Except.ok
            (some ⟨2, 4, RelativeTiming.Before, TimingType.Transplant⟩) ∧
    extract_weeks_pattern
        "2   to   4   weeks   after   your average last frost date"
        = Except.ok
            (some ⟨2, 4, RelativeTiming.After, TimingType.LastFrost⟩) := by
  constructor <;> rfl

/-- C10: an unrecognized non-empty strategy-override string parses to no
override, exactly as the empty string does, while the raw string is
retained on the record and appears in the export row's passthrough
column (index 5). -/
theorem c10_unknown_override_ignored (name url brand year notes s : String)
    (h1 : s ≠ "Inside") (h2 : s ≠ "Outside") :
    (from_csv_record [name, url, brand, year, notes, s]).user_strategy
        = none ∧
    (from_csv_record
        [name, url, brand, year, notes, s]).user_strategy_str = s ∧
    (from_csv_record [name, url, brand, year, notes, ""]).user_strategy
        = none ∧
    (create_error_record
        (from_csv_record [name, url, brand, year, notes, s])).get? 5
      = some s := by
  have hu : ∀ s' : String,
      (from_csv_record
        [name, url, brand, year, notes, s']).user_strategy
        = parse_user_strategy s' := fun s' => rfl
  refine ⟨?_, rfl, ?_, rfl⟩
  · rw [hu]
    simp [parse_user_strategy, h1, h2]
  · rw [hu]
    simp [parse_user_strategy]

/-- C10 witness: the unrecognized override "Greenhouse", via the
theorem. -/
theorem c10_unknown_override_ignored_witness :
    (from_csv_record
        ["Carrot", "u", "b", "2023", "n", "Greenhouse"]).user_strategy
        = none ∧
    (from_csv_record
        ["Carrot", "u", "b", "2023", "n",
         "Greenhouse"]).user_strategy_str = "Greenhouse" ∧
    (from_csv_record ["Carrot", "u", "b", "2023", "n", ""]).user_strategy
        = none ∧
    (create_error_record
        (from_csv_record
          ["Carrot", "u", "b", "2023", "n", "Greenhouse"])).get? 5
      = some "Greenhouse" :=
  c10_unknown_override_ignored "Carrot" "u" "b" "2023" "n" "Greenhouse"
    (by decide) (by decide)
